import Mathlib

/-!
Verification of the KWP2000-CAN diagnostic library.

This file embeds the frame codecs, the KWP2000 client request path, the
TP 2.0 segmented-send engine and the STAR-on-CAN ISO-TP send path of the
repository as executable Lean definitions, and proves (or refutes) the
stated properties of the specification against them.

Bytes are modelled as natural numbers; Python `bytes` values are lists of
naturals below 256.  Fallible code is modelled with `Except`, streams of
incoming frames with lists.
-/

deriving instance DecidableEq for Except

/-- A byte is in range iff it is below 256. -/
def IsByte (b : Nat) : Prop := b < 256

/-- All elements of a byte string are in range. -/
def IsByteList (l : List Nat) : Prop := ∀ b ∈ l, b < 256

instance (l : List Nat) : Decidable (IsByteList l) :=
  List.decidableBAll _ l

namespace KWP2000StarSerial

/-! Embedding of `src/kwp2000_star_serial/frames.py` together with the
constants of `src/protocols/serial/kwp2000_star_serial/constants.py`
(`START_BYTE = 0xB8`, `TARGET_ADDR = 0x12`, `SRC_ADDR = 0xF1`). -/

def START_BYTE : Nat := 0xB8

def TARGET_ADDR : Nat := 0x12

def SRC_ADDR : Nat := 0xF1

/-- `calculate_checksum` of `frames.py`: XOR of all message bytes. -/
def calculate_checksum (message : List Nat) : Nat :=
  message.foldl (fun result b => result ^^^ b) 0

/-- `build_frame` of `frames.py`:
`[START_BYTE, TARGET_ADDR, SRC_ADDR, len, payload..., checksum]`. -/
def build_frame (payload : List Nat) : List Nat :=
  let length := payload.length
  let message := [START_BYTE, TARGET_ADDR, SRC_ADDR, length] ++ payload
  let checksum := calculate_checksum message
  message ++ [checksum]

inductive FrameError where
  | invalidFrame : FrameError
  | invalidChecksum : FrameError
  deriving DecidableEq, Repr

/-- `parse_frame` of `frames.py`.  The target-address and source-address
checks of the source are commented out (`pass` bodies), so they are not
modelled as failures. -/
def parse_frame (frame : List Nat) : Except FrameError (List Nat) :=
  if frame.length < 5 then .error .invalidFrame
  else if frame.getD 0 0 ≠ START_BYTE then .error .invalidFrame
  else
    let length := frame.getD 3 0
    let expected_frame_length := 1 + 3 + length + 1
    if frame.length < expected_frame_length then .error .invalidFrame
    else
      let payload := (frame.drop 4).take length
      let message := frame.take (4 + length)
      let expected_checksum := calculate_checksum message
      let actual_checksum := frame.getD (4 + length) 0
      if actual_checksum ≠ expected_checksum then .error .invalidChecksum
      else .ok payload

/-- The sum of all bytes reduced modulo 256, the checksum the specification
describes for this framer. -/
def sum_mod_256 (message : List Nat) : Nat :=
  (message.foldl (fun result b => result + b) 0) % 256

end KWP2000StarSerial

namespace DS2Frames

/-! Embedding of `src/protocols/serial/ds2/frames.py`. -/

/-- `calculate_checksum` of `ds2/frames.py`: XOR of all message bytes. -/
def calculate_checksum (message : List Nat) : Nat :=
  message.foldl (fun result b => result ^^^ b) 0

/-- `build_frame` of `ds2/frames.py`: `[address, size] + payload + checksum`
with `size = 2 + len(payload) + 1`. -/
def build_frame (address : Nat) (payload : List Nat) : List Nat :=
  let size := 2 + payload.length + 1
  let message := address :: size :: payload
  message ++ [calculate_checksum message]

inductive FrameError where
  | valueError : FrameError
  | invalidChecksum : FrameError
  deriving DecidableEq, Repr

/-- `parse_frame` of `ds2/frames.py`.  The three `ValueError` sites of the
source (frame shorter than 3, size byte below 3, frame shorter than size)
map to `FrameError.valueError`. -/
def parse_frame (frame : List Nat) : Except FrameError (Nat × List Nat) :=
  if frame.length < 3 then .error .valueError
  else
    let address := frame.getD 0 0
    let size := frame.getD 1 0
    if size < 3 then .error .valueError
    else if frame.length < size then .error .valueError
    else
      let payload := (frame.take (size - 1)).drop 2
      let message := frame.take (size - 1)
      let expected_checksum := calculate_checksum message
      let actual_checksum := frame.getD (size - 1) 0
      if actual_checksum ≠ expected_checksum then .error .invalidChecksum
      else .ok (address, payload)

end DS2Frames

namespace KWP2000

/-! Embedding of `src/protocols/kwp2000/constants.py`,
`src/kwp2000/services.py` (the positive-response id constants) and
`src/protocols/kwp2000/client.py` (`KWP2000Client.send_request`). -/

def SERVICE_TESTER_PRESENT : Nat := 0x3E

def SERVICE_ESC_CODE : Nat := 0x80

def SERVICE_ACCESS_TIMING_PARAMETER : Nat := 0x83

def RESPONSE_POSITIVE : Nat := 0x40

def RESPONSE_NEGATIVE : Nat := 0x7F

def NRC_RESPONSE_PENDING : Nat := 0x78

/-- `NON_STANDARD_RESPONSE_IDS` of `protocols/kwp2000/constants.py`. -/
def NON_STANDARD_RESPONSE_IDS : List (Nat × Nat) :=
  [(0x80, 0xC0), (0x3E, 0x7E), (0x83, 0xC3)]

/-- `TesterPresent.POSITIVE_RESPONSE_SERVICE_ID` of `kwp2000/services.py`. -/
def TesterPresent_POSITIVE_RESPONSE_SERVICE_ID : Nat := 0x7E

/-- `AccessTimingParameter.POSITIVE_RESPONSE_SERVICE_ID` of
`kwp2000/services.py`. -/
def AccessTimingParameter_POSITIVE_RESPONSE_SERVICE_ID : Nat := 0xC3

/-- `EscCode.POSITIVE_RESPONSE_SERVICE_ID` of `kwp2000/services.py`. -/
def EscCode_POSITIVE_RESPONSE_SERVICE_ID : Nat := 0xC0

/-- Modelled from the spec: the KWP2000 response parser
(`protocols/kwp2000/response.py`, not under `src/`) computes the expected
positive response service id as `sid + 0x40`, with the exceptions listed in
`NON_STANDARD_RESPONSE_IDS` of `protocols/kwp2000/constants.py`. -/
def expected_positive_response_id (sid : Nat) : Nat :=
  match NON_STANDARD_RESPONSE_IDS.lookup sid with
  | some rid => rid
  | none => sid + RESPONSE_POSITIVE

inductive ClientError where
  | timeout : ClientError
  | negativeResponse (sid nrc : Nat) : ClientError
  | invalidResponse : ClientError
  deriving DecidableEq, Repr

structure Response where
  sid : Nat
  data : List Nat
  deriving DecidableEq, Repr

/-- Modelled from the spec: `Response.from_payload` of
`protocols/kwp2000/response.py` is not under `src/`.  Per §4.2 of the spec a
response whose first byte is `0x7F` is negative, carrying the echoed service
id `R[1]` and the NRC `R[2]` (raised as `NegativeResponseException`);
otherwise the first byte is the positive response service id and the
remaining bytes are the response data. -/
def from_payload (payload : List Nat) : Except ClientError Response :=
  match payload with
  | [] => .error .invalidResponse
  | first :: rest =>
    if first = RESPONSE_NEGATIVE then
      match rest with
      | sid :: nrc :: _ => .error (.negativeResponse sid nrc)
      | _ => .error .invalidResponse
    else .ok ⟨first, rest⟩

/-- `KWP2000Client.send_request` of `protocols/kwp2000/client.py`, response
side.  The source sends the request payload, then calls
`transport.wait_frame` exactly once; a `None` result raises
`TimeoutException`, otherwise the single received payload is passed to
`Response.from_payload` and a `NegativeResponseException` is re-raised
unchanged.  `responses` lists the payloads successive `wait_frame` calls
would deliver. -/
def send_request (responses : List (List Nat)) : Except ClientError Response :=
  match responses with
  | [] => .error .timeout
  | r :: _ => from_payload r

/-- A response-pending negative frame `(0x7F, sid, 0x78)`. -/
def pending_frame (sid : Nat) : List Nat := [RESPONSE_NEGATIVE, sid, NRC_RESPONSE_PENDING]

end KWP2000

namespace TP20

/-! Embedding of `TP20Transport._send_segmented` and
`TP20Transport._wait_for_ack` of `src/tp20/transport.py`.  The helper
modules `tp20/constants.py` and `tp20/frames.py` are not under `src/`;
their constants and the data-frame codec are modelled from the spec
(§4.4.3): a data frame's first byte carries the opcode in the high nibble
and a 4-bit sequence number in the low nibble, and CAN frames are padded
to 8 bytes with zeros. -/

structure CanFrame where
  id : Nat
  data : List Nat
  deriving DecidableEq, Repr

def DATA_OP_WAIT_ACK_MORE : Nat := 0x1

def DATA_OP_WAIT_ACK_LAST : Nat := 0x2

def DATA_OP_NO_ACK_MORE : Nat := 0x3

def DATA_OP_NO_ACK_LAST : Nat := 0x4

def DATA_OP_ACK_NOT_READY : Nat := 0x9

def DATA_OP_ACK_READY : Nat := 0xB

def SEQ_MASK : Nat := 0xF

def OPCODE_CHANNEL_TEST : Nat := 0xA3

def OPCODE_DISCONNECT : Nat := 0xA8

/-- Modelled from the spec: `build_data_frame` of `tp20/frames.py` (not
under `src/`).  First byte is `(opcode << 4) | (seq & 0xF)`, then the chunk,
padded to 8 bytes with zeros (spec §4.4.3 step 5 and scenario S5). -/
def build_data_frame (opcode seq : Nat) (chunk : List Nat) : List Nat :=
  let d := (opcode * 16 + (seq &&& SEQ_MASK)) :: chunk
  d ++ List.replicate (8 - d.length) 0

/-- Modelled from the spec: `parse_data_frame` of `tp20/frames.py` (not
under `src/`).  Splits the first byte into opcode (high nibble) and
sequence (low nibble); an empty frame raises `ValueError`. -/
def parse_data_frame (data : List Nat) : Except Unit (Nat × Nat × List Nat) :=
  match data with
  | [] => .error ()
  | b :: rest => .ok (b / 16, b % 16, rest)

inductive TP20Error where
  | timeout : TP20Error
  | disconnected : TP20Error
  deriving DecidableEq, Repr

/-- `TP20Transport._wait_for_ack` of `tp20/transport.py`.  The incoming CAN
traffic is modelled as the list `rx`; exhausting it corresponds to the
timeout.  Frames on other CAN ids, keep-alive echoes (`[0xA3]`) and
unparseable or non-matching frames are skipped; `[0xA8]` raises
`TP20DisconnectedException`; an ACK opcode whose sequence equals
`(seq + 1) & 0xF` is accepted, with a receiver-not-ready ACK deferring
(sleep and continue waiting). -/
def wait_for_ack (rx_can_id seq : Nat) : List CanFrame → Except TP20Error (List CanFrame)
  | [] => .error .timeout
  | f :: rest =>
    if f.id ≠ rx_can_id then wait_for_ack rx_can_id seq rest
    else if f.data = [OPCODE_CHANNEL_TEST] then wait_for_ack rx_can_id seq rest
    else if f.data = [OPCODE_DISCONNECT] then .error .disconnected
    else
      match parse_data_frame f.data with
      | .error _ => wait_for_ack rx_can_id seq rest
      | .ok (opcode, s, _) =>
        if (opcode = DATA_OP_ACK_READY ∨ opcode = DATA_OP_ACK_NOT_READY) ∧
            s = (seq + 1) &&& SEQ_MASK then
          if opcode = DATA_OP_ACK_NOT_READY then wait_for_ack rx_can_id seq rest
          else .ok rest
        else wait_for_ack rx_can_id seq rest

/-- One event of a segmented send: a data frame emitted on the TX id
(recording its opcode and 4-bit sequence number), or a successfully
received block acknowledgement. -/
inductive TPEvent where
  | sent (opcode seq : Nat) (frame : List Nat) : TPEvent
  | ackOk : TPEvent
  deriving DecidableEq, Repr

/-- The chunking performed by the loop of `_send_segmented`:
`chunk_size = min(7, payload_len - offset)` slices of the payload.  Fuel
recursion (on the payload length) keeps the definition kernel-reducible. -/
def chunks7_fuel : Nat → List Nat → List (List Nat)
  | 0, _ => []
  | _, [] => []
  | fuel + 1, payload => payload.take 7 :: chunks7_fuel fuel (payload.drop 7)

def chunks7 (payload : List Nat) : List (List Nat) :=
  chunks7_fuel payload.length payload

/-- The loop body of `TP20Transport._send_segmented` of
`tp20/transport.py`, recursing over the 7-byte chunks of the payload.
State: `seq` is `sequence` (the running send sequence number), `block_count`
counts chunks since the last ACK.  Each chunk increments `block_count`;
`need_ack` holds when the block is full (`block_count >= self._block_size`)
or the chunk is the last; the opcode is the matching wait-ACK/no-ACK
more/last variant; after an ACK-required chunk the engine blocks in
`_wait_for_ack` before the next chunk, and resets `block_count`.  The
result is the event trace, the final send sequence and the unconsumed RX
traffic. -/
def send_chunks (bs rx_can_id : Nat) :
    Nat → Nat → List (List Nat) → List CanFrame →
    Except TP20Error (List TPEvent × Nat × List CanFrame)
  | seq, _, [], rx => .ok ([], seq, rx)
  | seq, block_count, chunk :: rest, rx =>
    let is_last := rest = []
    let need_ack := bs ≤ block_count + 1 ∨ is_last
    let opcode :=
      if need_ack then
        if is_last then DATA_OP_WAIT_ACK_LAST else DATA_OP_WAIT_ACK_MORE
      else
        if is_last then DATA_OP_NO_ACK_LAST else DATA_OP_NO_ACK_MORE
    let frame := build_data_frame opcode seq chunk
    if need_ack then
      match wait_for_ack rx_can_id seq rx with
      | .error e => .error e
      | .ok rx' =>
        match send_chunks bs rx_can_id ((seq + 1) &&& SEQ_MASK) 0 rest rx' with
        | .error e => .error e
        | .ok (tr, s', rx'') =>
          .ok (.sent opcode (seq &&& SEQ_MASK) frame :: .ackOk :: tr, s', rx'')
    else
      match send_chunks bs rx_can_id ((seq + 1) &&& SEQ_MASK) (block_count + 1) rest rx with
      | .error e => .error e
      | .ok (tr, s', rx'') =>
        .ok (.sent opcode (seq &&& SEQ_MASK) frame :: tr, s', rx'')

/-- `TP20Transport._do_send` of `tp20/transport.py`: prepend the 2-byte
big-endian length header, then send segmented. -/
def do_send (bs rx_can_id seq : Nat) (data : List Nat) (rx : List CanFrame) :
    Except TP20Error (List TPEvent × Nat × List CanFrame) :=
  let payload := ((data.length / 256) % 256) :: (data.length % 256) :: data
  send_chunks bs rx_can_id seq 0 (chunks7 payload) rx

/-- The sequence numbers borne by the sent data frames of a trace. -/
def sent_seqs (tr : List TPEvent) : List Nat :=
  tr.filterMap fun e =>
    match e with
    | .sent _ s _ => some s
    | .ackOk => none

/-- Checker for the block-size ACK pacing discipline: counting sent frames
since the last acknowledgement, whenever the count reaches `bs` the frame
just sent must bear a wait-ACK opcode and be followed immediately by a
received acknowledgement before any further frame is sent. -/
def ack_paced (bs : Nat) : Nat → List TPEvent → Bool
  | _, [] => true
  | _, .ackOk :: tr => ack_paced bs 0 tr
  | c, .sent op _ _ :: tr =>
    if bs ≤ c + 1 then
      (op == DATA_OP_WAIT_ACK_MORE || op == DATA_OP_WAIT_ACK_LAST) &&
        match tr with
        | .ackOk :: tr' => ack_paced bs 0 tr'
        | _ => false
    else ack_paced bs (c + 1) tr

/-- RX traffic for the block-size witness run: ready ACKs for sequences 2
and 3 on CAN id `0x300`. -/
def witness_rx_bs2 : List CanFrame := [⟨0x300, [0xB2]⟩, ⟨0x300, [0xB3]⟩]

/-- The event trace of sending a 15-byte payload (three chunks) with
`block_size = 2` against `witness_rx_bs2`. -/
def witness_trace_bs2 : List TPEvent :=
  [.sent 3 0 [48, 0, 0, 0, 0, 0, 0, 0],
   .sent 1 1 [17, 0, 0, 0, 0, 0, 0, 0],
   .ackOk,
   .sent 2 2 [34, 0, 0, 0, 0, 0, 0, 0],
   .ackOk]

/-- RX traffic for the sequence-wrap witness run: ready ACKs for sequences
15 and 1 on CAN id `0x300`. -/
def witness_rx_seq17 : List CanFrame := [⟨0x300, [0xBF]⟩, ⟨0x300, [0xB1]⟩]

/-- The event trace of sending a 115-byte payload (seventeen chunks) with
`block_size = 15` against `witness_rx_seq17`. -/
def witness_trace_seq17 : List TPEvent :=
  [.sent 3 0 [48, 0, 0, 0, 0, 0, 0, 0],
   .sent 3 1 [49, 0, 0, 0, 0, 0, 0, 0],
   .sent 3 2 [50, 0, 0, 0, 0, 0, 0, 0],
   .sent 3 3 [51, 0, 0, 0, 0, 0, 0, 0],
   .sent 3 4 [52, 0, 0, 0, 0, 0, 0, 0],
   .sent 3 5 [53, 0, 0, 0, 0, 0, 0, 0],
   .sent 3 6 [54, 0, 0, 0, 0, 0, 0, 0],
   .sent 3 7 [55, 0, 0, 0, 0, 0, 0, 0],
   .sent 3 8 [56, 0, 0, 0, 0, 0, 0, 0],
   .sent 3 9 [57, 0, 0, 0, 0, 0, 0, 0],
   .sent 3 10 [58, 0, 0, 0, 0, 0, 0, 0],
   .sent 3 11 [59, 0, 0, 0, 0, 0, 0, 0],
   .sent 3 12 [60, 0, 0, 0, 0, 0, 0, 0],
   .sent 3 13 [61, 0, 0, 0, 0, 0, 0, 0],
   .sent 1 14 [30, 0, 0, 0, 0, 0, 0, 0],
   .ackOk,
   .sent 3 15 [63, 0, 0, 0, 0, 0, 0, 0],
   .sent 2 0 [32, 0, 0, 0, 0, 0, 0, 0],
   .ackOk]

end TP20

namespace KWP2000StarCAN

/-! Embedding of `KWP2000StarTransportCAN.send` of
`src/protocols/can/kwp2000_star_can/transport.py`.  The module's
`constants.py` is not under `src/`; per the spec (§4.5) and the
transport's docstrings, `TARGET_ADDR = 0x12` and `SRC_ADDR = 0xF1`. -/

def TARGET_ADDR : Nat := 0x12

def SRC_ADDR : Nat := 0xF1

/-- Python `bytes.ljust(8, b"\x00")`: pad on the right with zeros up to
8 bytes; longer values are left unchanged (never truncated). -/
def ljust8 (l : List Nat) : List Nat :=
  l ++ List.replicate (8 - l.length) 0

/-- `_send_flow_control(block_size=0, separation_time_ms=2)`:
`[TARGET_ADDR, 0x30, block_size & 0xFF, separation_time & 0xFF]` padded. -/
def flow_control_frame : List Nat :=
  ljust8 [TARGET_ADDR, 0x30, 0x00, 0x02]

/-- The Consecutive-Frame loop of `send`: 6-byte chunks with PCI
`0x20 | (seq & 0x0F)`, sequence incremented `(seq + 1) & 0x0F` and rolling
from 0 back to 1.  Fuel recursion keeps the definition kernel-reducible. -/
def consecutive_frames_fuel : Nat → Nat → List Nat → List (List Nat)
  | 0, _, _ => []
  | _, _, [] => []
  | fuel + 1, seq, data =>
    let chunk := data.take 6
    let pci := 0x20 ||| (seq &&& 0x0F)
    let frame := ljust8 (TARGET_ADDR :: pci :: chunk)
    let seq1 := (seq + 1) &&& 0x0F
    let seq2 := if seq1 = 0 then 1 else seq1
    frame :: consecutive_frames_fuel fuel seq2 (data.drop 6)

def consecutive_frames (seq : Nat) (data : List Nat) : List (List Nat) :=
  consecutive_frames_fuel data.length seq data

/-- `KWP2000StarTransportCAN.send`: the list of CAN data payloads emitted on
the TX id, in order.  Payloads of length at most 7 take the Single-Frame
path (`pci = 0x00 | payload_len`); longer payloads are sent as a First
Frame, the tester's own Flow-Control frame, then Consecutive Frames. -/
def send (data : List Nat) : List (List Nat) :=
  let payload_len := data.length
  if payload_len ≤ 7 then
    [ljust8 (TARGET_ADDR :: (0x00 ||| payload_len) :: data)]
  else
    let length_high := (payload_len / 256) &&& 0x0F
    let length_low := payload_len % 256
    let first_pci := 0x10 ||| length_high
    let first_frame := ljust8 (TARGET_ADDR :: first_pci :: length_low :: data.take 5)
    first_frame :: flow_control_frame :: consecutive_frames 1 (data.drop 5)

end KWP2000StarCAN

namespace DS2Client

/-! Embedding of `DS2Client.send_request` of
`src/protocols/serial/ds2/client.py`, `ComportTransport.wait_frame` of
`src/protocols/serial/ds2/comport_transport.py` and `Response.from_frame`
of `src/protocols/serial/ds2/response.py`.  The serial line is modelled as
the list of bytes available to read. -/

/-- Modelled from the spec: the DS2 status constants of
`protocols/serial/ds2/constants.py` are not under `src/`; §4.1 of the spec
lists the status octets. -/
def STATUS_OKAY : Nat := 0xA0

def STATUS_BUSY : Nat := 0xA1

def STATUS_ERROR_ECU_REJECTED : Nat := 0xA2

def STATUS_ERROR_ECU_PARAMETER : Nat := 0xA3

def STATUS_ERROR_ECU_FUNCTION : Nat := 0xA4

def STATUS_ERROR_ECU_NUMBER : Nat := 0xA5

def STATUS_ERROR_ECU_NACK : Nat := 0xFF

/-- `ComportTransport.wait_frame`: read the address byte, the size byte,
`size - 3` further bytes and the checksum byte; any shortfall returns
`None` (timeout).  Returns the assembled frame and the bytes left on the
line (which the source then discards via `reset_input_buffer`); the frame
therefore consumes exactly `size` bytes. -/
def wait_frame (line : List Nat) : Option (List Nat × List Nat) :=
  match line with
  | [] => none
  | address :: rest =>
    match rest with
    | [] => none
    | size :: rest2 =>
      let remaining := size - 3
      if rest2.length < remaining then none
      else
        let payload := rest2.take remaining
        match rest2.drop remaining with
        | [] => none
        | checksum :: leftover =>
          some (address :: size :: (payload ++ [checksum]), leftover)

inductive ClientError where
  | timeoutEcho : ClientError
  | timeoutReply : ClientError
  | invalidChecksum : ClientError
  | protocolError : ClientError
  | computerBusy : ClientError
  | invalidParameter : ClientError
  | invalidCommand : ClientError
  deriving DecidableEq, Repr

structure Response where
  address : Nat
  status : Nat
  data : List Nat
  deriving DecidableEq, Repr

/-- The status dispatch of `Response.from_frame` (split out of the source
function for clarity): `0xA0` and unknown statuses yield a `Response`, the
listed error statuses raise. -/
def from_status (address : Nat) (payload : List Nat) : Except ClientError Response :=
  match payload with
  | [] => .error .protocolError
  | status :: data =>
    if status = STATUS_OKAY then .ok ⟨address, status, data⟩
    else if status = STATUS_BUSY then .error .computerBusy
    else if status = STATUS_ERROR_ECU_REJECTED then .error .protocolError
    else if status = STATUS_ERROR_ECU_PARAMETER then .error .invalidParameter
    else if status = STATUS_ERROR_ECU_FUNCTION then .error .protocolError
    else if status = STATUS_ERROR_ECU_NUMBER then .error .protocolError
    else if status = STATUS_ERROR_ECU_NACK then .error .invalidCommand
    else .ok ⟨address, status, data⟩

/-- `Response.from_frame` of `protocols/serial/ds2/response.py`. -/
def from_frame (frame : List Nat) (expected_address : Option Nat) :
    Except ClientError Response :=
  match DS2Frames.parse_frame frame with
  | .error .invalidChecksum => .error .invalidChecksum
  | .error .valueError => .error .protocolError
  | .ok (address, payload) =>
    match expected_address with
    | some ea =>
      if address ≠ ea then .error .protocolError
      else from_status address payload
    | none => from_status address payload

/-- The reply half of `DS2Client.send_request`: wait for the reply frame
and parse it against the request's address. -/
def reply_phase (expected_address : Nat) (reply_line : List Nat) :
    Except ClientError Response :=
  match wait_frame reply_line with
  | none => .error .timeoutReply
  | some (reply, _) => from_frame reply (some expected_address)

/-- `DS2Client.send_request` of `protocols/serial/ds2/client.py`: send the
request frame, read the echo via `wait_frame` and discard it, then wait
for and parse the reply.  `echo_line` and `reply_line` are the bytes the
serial line delivers to the two successive `wait_frame` calls. -/
def send_request (expected_address : Nat) (echo_line reply_line : List Nat) :
    Except ClientError Response :=
  match wait_frame echo_line with
  | none => .error .timeoutEcho
  | some _ => reply_phase expected_address reply_line

end DS2Client

/-! ## Theorems -/

section ListHelpers

/-- `getD` on an append stays in the left list below its length. -/
theorem getD_append_left (l₁ l₂ : List Nat) (i : Nat) (h : i < l₁.length) :
    (l₁ ++ l₂).getD i 0 = l₁.getD i 0 := by
  simp [List.getD_eq_getElem?_getD, List.getElem?_append, h]

/-- `getD` at the length of the left list of an append reads the head of
the right list. -/
theorem getD_append_length (l₁ l₂ : List Nat) (c : Nat) :
    (l₁ ++ c :: l₂).getD l₁.length 0 = c := by
  simp [List.getD_eq_getElem?_getD, List.getElem?_append_right]
  rw [List.getElem_append_right] <;> simp

end ListHelpers

namespace KWP2000StarSerial

/-- Shared helper: whenever a frame satisfies the start-byte, length and
checksum discipline, `parse_frame` succeeds with the payload slice.  The
hypotheses put no constraint on bytes 1 and 2 (target and source). -/
theorem parse_frame_spec (frame : List Nat)
    (h5 : 5 ≤ frame.length)
    (hstart : frame.getD 0 0 = START_BYTE)
    (hlen : 5 + frame.getD 3 0 ≤ frame.length)
    (hck : frame.getD (4 + frame.getD 3 0) 0 =
      calculate_checksum (frame.take (4 + frame.getD 3 0))) :
    parse_frame frame = .ok ((frame.drop 4).take (frame.getD 3 0)) := by
  unfold parse_frame
  rw [if_neg (by omega), if_neg (not_not_intro hstart), if_neg (by omega),
    if_neg (not_not_intro hck)]

end KWP2000StarSerial

namespace KWP2000StarSerial

/-- C1 (amended): for every payload of at most 255 bytes, parsing a built
KWP2000-STAR serial frame returns that payload, and the checksum byte of
the built frame equals the XOR of all preceding frame bytes (the source's
`calculate_checksum`), not their sum modulo 256. -/
theorem star_serial_frame_roundtrip (payload : List Nat)
    (hlen : payload.length ≤ 255) (hbytes : IsByteList payload) :
    parse_frame (build_frame payload) = .ok payload ∧
    (build_frame payload).getLast? =
      some (calculate_checksum ((build_frame payload).dropLast)) := by
  have hm : build_frame payload =
      (START_BYTE :: TARGET_ADDR :: SRC_ADDR :: payload.length :: payload) ++
        [calculate_checksum
          (START_BYTE :: TARGET_ADDR :: SRC_ADDR :: payload.length :: payload)] := rfl
  have hmlen :
      (START_BYTE :: TARGET_ADDR :: SRC_ADDR :: payload.length :: payload).length =
        4 + payload.length := by simp; omega
  have hlen5 : (build_frame payload).length = 5 + payload.length := by
    rw [hm]; simp; omega
  have hget3 : (build_frame payload).getD 3 0 = payload.length := by
    rw [hm]; rfl
  have htake : (build_frame payload).take (4 + payload.length) =
      START_BYTE :: TARGET_ADDR :: SRC_ADDR :: payload.length :: payload := by
    rw [hm, ← hmlen, List.take_left]
  have hgetck : (build_frame payload).getD (4 + payload.length) 0 =
      calculate_checksum
        (START_BYTE :: TARGET_ADDR :: SRC_ADDR :: payload.length :: payload) := by
    rw [hm, ← hmlen]
    exact getD_append_length _ _ _
  constructor
  · have hspec := parse_frame_spec (build_frame payload)
      (by omega) (by rw [hm]; rfl) (by rw [hget3]; omega)
      (by rw [hget3, hgetck, htake])
    rw [hspec, hget3]
    have hdrop : (build_frame payload).drop 4 =
        payload ++ [calculate_checksum
          (START_BYTE :: TARGET_ADDR :: SRC_ADDR :: payload.length :: payload)] := by
      rw [hm]; rfl
    rw [hdrop, List.take_left' rfl]
  · rw [hm, List.getLast?_concat, List.dropLast_concat]

/-- C1 witness: the round-trip and XOR-checksum law at the concrete payload
`[0x1A, 0x80]`. -/
theorem star_serial_frame_roundtrip_witness :
    parse_frame (build_frame [0x1A, 0x80]) = .ok [0x1A, 0x80] ∧
    (build_frame [0x1A, 0x80]).getLast? =
      some (calculate_checksum ((build_frame [0x1A, 0x80]).dropLast)) :=
  star_serial_frame_roundtrip [0x1A, 0x80] (by decide) (by decide)

/-- C1 counterexample: at the empty payload the built frame is
`[0xB8, 0x12, 0xF1, 0x00, 0x5B]` — its checksum byte `0x5B` is the XOR of
the preceding bytes, while their sum modulo 256 is `0xBB`, so the claimed
sum-mod-256 checksum law fails. -/
theorem star_serial_sum_checksum_refuted :
    ¬ (parse_frame (build_frame []) = .ok ([] : List Nat) ∧
       (build_frame []).getLast? = some (sum_mod_256 ((build_frame []).dropLast))) := by
  intro h
  exact absurd h.2 (by decide)

/-- C9: the KWP2000-STAR serial frame parser never rejects a frame for a
target-address or source-address mismatch: whenever the start byte is
`0xB8` and the length and checksum discipline hold, `parse_frame` returns
the payload slice — the hypotheses put no constraint whatsoever on bytes 1
(target) and 2 (source), and the parser has no address-mismatch failure
(the source's address checks are commented out). -/
theorem star_serial_parse_ignores_addresses (frame : List Nat)
    (h5 : 5 ≤ frame.length)
    (hstart : frame.getD 0 0 = START_BYTE)
    (hlen : 5 + frame.getD 3 0 ≤ frame.length)
    (hck : frame.getD (4 + frame.getD 3 0) 0 =
      calculate_checksum (frame.take (4 + frame.getD 3 0))) :
    parse_frame frame = .ok ((frame.drop 4).take (frame.getD 3 0)) :=
  parse_frame_spec frame h5 hstart hlen hck

/-- C9 witness: a frame whose target byte is `0x00` (not `TARGET_ADDR =
0x12`) and whose source byte is `0x01` (not `SRC_ADDR = 0xF1`) still parses
to its payload. -/
theorem star_serial_parse_ignores_addresses_witness :
    parse_frame [0xB8, 0x00, 0x01, 0x01, 0xAA, 0x12] = .ok [0xAA] ∧
    (0x00 : Nat) ≠ TARGET_ADDR ∧ (0x01 : Nat) ≠ SRC_ADDR :=
  ⟨star_serial_parse_ignores_addresses [0xB8, 0x00, 0x01, 0x01, 0xAA, 0x12]
      (by decide) (by decide) (by decide) (by decide),
    by decide, by decide⟩

end KWP2000StarSerial

namespace DS2Frames

/-- Shared helper: whenever a DS2 frame satisfies the size and checksum
discipline, `parse_frame` succeeds with the address and payload slice. -/
theorem ds2_parse_frame_spec (frame : List Nat)
    (hs : 3 ≤ frame.getD 1 0) (hlen : frame.getD 1 0 ≤ frame.length)
    (hck : frame.getD (frame.getD 1 0 - 1) 0 =
      calculate_checksum (frame.take (frame.getD 1 0 - 1))) :
    parse_frame frame =
      .ok (frame.getD 0 0, (frame.take (frame.getD 1 0 - 1)).drop 2) := by
  unfold parse_frame
  rw [if_neg (by omega), if_neg (by omega), if_neg (by omega),
    if_neg (not_not_intro hck)]

/-- C6: for every address byte and payload of at most 252 bytes, parsing a
built DS2 frame returns the original address/payload pair. -/
theorem ds2_frame_roundtrip (address : Nat) (payload : List Nat)
    (ha : address < 256) (hlen : payload.length ≤ 252)
    (hbytes : IsByteList payload) :
    parse_frame (build_frame address payload) = .ok (address, payload) := by
  have hm : build_frame address payload =
      (address :: (2 + payload.length + 1) :: payload) ++
        [calculate_checksum (address :: (2 + payload.length + 1) :: payload)] := rfl
  have hmlen : (address :: (2 + payload.length + 1) :: payload).length =
      2 + payload.length := by
    show payload.length + 1 + 1 = 2 + payload.length
    omega
  have hget1 : (build_frame address payload).getD 1 0 = 2 + payload.length + 1 := by
    rw [hm]; rfl
  have hget0 : (build_frame address payload).getD 0 0 = address := by
    rw [hm]; rfl
  have hflen : (build_frame address payload).length = payload.length + 3 := by
    rw [hm]; simp
  have hidx : 2 + payload.length + 1 - 1 =
      (address :: (2 + payload.length + 1) :: payload).length := by
    rw [hmlen]; omega
  have htake : (build_frame address payload).take (2 + payload.length + 1 - 1) =
      address :: (2 + payload.length + 1) :: payload := by
    rw [hm, hidx]
    exact List.take_left _ _
  have hgetck : (build_frame address payload).getD (2 + payload.length + 1 - 1) 0 =
      calculate_checksum (address :: (2 + payload.length + 1) :: payload) := by
    rw [hm, hidx]
    exact getD_append_length _ _ _
  have hspec := ds2_parse_frame_spec (build_frame address payload)
    (by rw [hget1]; omega) (by rw [hget1, hflen]; omega)
    (by rw [hget1, hgetck, htake])
  rw [hspec, hget0, hget1, htake]
  rfl

/-- C6 witness: the DS2 round-trip at address `0x12` and payload
`[0x04, 0x01]`. -/
theorem ds2_frame_roundtrip_witness :
    parse_frame (build_frame 0x12 [0x04, 0x01]) = .ok (0x12, [0x04, 0x01]) :=
  ds2_frame_roundtrip 0x12 [0x04, 0x01] (by decide) (by decide) (by decide)

/-- C10: the DS2 frame parser ignores every byte past the declared size:
appending any suffix to a frame that satisfies the size and checksum
discipline leaves the parse result unchanged. -/
theorem ds2_parse_ignores_trailing (frame t : List Nat)
    (hs : 3 ≤ frame.getD 1 0) (hlen : frame.getD 1 0 ≤ frame.length)
    (hck : frame.getD (frame.getD 1 0 - 1) 0 =
      calculate_checksum (frame.take (frame.getD 1 0 - 1))) :
    parse_frame (frame ++ t) = parse_frame frame ∧
    parse_frame frame =
      .ok (frame.getD 0 0, (frame.take (frame.getD 1 0 - 1)).drop 2) := by
  have h3 : 3 ≤ frame.length := le_trans hs hlen
  have hget1t : (frame ++ t).getD 1 0 = frame.getD 1 0 :=
    getD_append_left _ _ _ (by omega)
  have hget0t : (frame ++ t).getD 0 0 = frame.getD 0 0 :=
    getD_append_left _ _ _ (by omega)
  have htaket : (frame ++ t).take (frame.getD 1 0 - 1) =
      frame.take (frame.getD 1 0 - 1) :=
    List.take_append_of_le_length (by omega)
  have hgetckt : (frame ++ t).getD (frame.getD 1 0 - 1) 0 =
      frame.getD (frame.getD 1 0 - 1) 0 :=
    getD_append_left _ _ _ (by omega)
  have h1 := ds2_parse_frame_spec frame hs hlen hck
  have h2 := ds2_parse_frame_spec (frame ++ t)
    (by rw [hget1t]; exact hs) (by rw [hget1t, List.length_append]; omega)
    (by rw [hget1t, hgetckt, htaket]; exact hck)
  refine ⟨?_, h1⟩
  rw [h1, h2, hget0t, hget1t, htaket]

/-- C10 witness: the frame `[0x12, 0x05, 0xA0, 0x01, 0xB6]` parses the same
with the trailing byte `0xFF` appended. -/
theorem ds2_parse_ignores_trailing_witness :
    parse_frame ([0x12, 0x05, 0xA0, 0x01, 0xB6] ++ [0xFF]) =
      parse_frame [0x12, 0x05, 0xA0, 0x01, 0xB6] ∧
    parse_frame [0x12, 0x05, 0xA0, 0x01, 0xB6] = .ok (0x12, [0xA0, 0x01]) :=
  ds2_parse_ignores_trailing [0x12, 0x05, 0xA0, 0x01, 0xB6] [0xFF]
    (by decide) (by decide) (by decide)

end DS2Frames

namespace KWP2000

/-- C3: the expected positive response service id is `s + 0x40` for every
service id outside the three published exceptions, and `0x3E → 0x7E`,
`0x80 → 0xC0`, `0x83 → 0xC3` for the exceptions — in agreement with the
per-service constants of `kwp2000/services.py`. -/
theorem kwp_positive_response_id_law :
    (∀ s : Nat, s ≠ 0x3E → s ≠ 0x80 → s ≠ 0x83 →
      expected_positive_response_id s = s + 0x40) ∧
    expected_positive_response_id 0x3E = 0x7E ∧
    expected_positive_response_id 0x80 = 0xC0 ∧
    expected_positive_response_id 0x83 = 0xC3 ∧
    expected_positive_response_id SERVICE_TESTER_PRESENT =
      TesterPresent_POSITIVE_RESPONSE_SERVICE_ID ∧
    expected_positive_response_id SERVICE_ACCESS_TIMING_PARAMETER =
      AccessTimingParameter_POSITIVE_RESPONSE_SERVICE_ID ∧
    expected_positive_response_id SERVICE_ESC_CODE =
      EscCode_POSITIVE_RESPONSE_SERVICE_ID := by
  refine ⟨?_, rfl, rfl, rfl, rfl, rfl, rfl⟩
  intro s h3E h80 h83
  simp [expected_positive_response_id, NON_STANDARD_RESPONSE_IDS, List.lookup,
    beq_eq_false_iff_ne.mpr h3E, beq_eq_false_iff_ne.mpr h80,
    beq_eq_false_iff_ne.mpr h83, RESPONSE_POSITIVE]

/-- C3 witness: the law at the ordinary service id `0x10` and at the
exception `0x3E`. -/
theorem kwp_positive_response_id_law_witness :
    expected_positive_response_id 0x10 = 0x50 ∧
    expected_positive_response_id 0x3E = 0x7E :=
  ⟨kwp_positive_response_id_law.1 0x10 (by decide) (by decide) (by decide),
    kwp_positive_response_id_law.2.1⟩

/-- C2 counterexample: with one pending frame `(0x7F, 0x21, 0x78)` followed
by the positive frame `(0x61, 0x01, 0xAA, 0xBB, 0xCC)`, the client façade's
`send_request` performs a single `wait_frame` and surfaces the pending
negative response instead of returning the positive frame. -/
theorem kwp_pending_surfaces_counterexample :
    send_request [pending_frame 0x21, [0x61, 0x01, 0xAA, 0xBB, 0xCC]] =
      .error (.negativeResponse 0x21 0x78) ∧
    send_request [pending_frame 0x21, [0x61, 0x01, 0xAA, 0xBB, 0xCC]] ≠
      .ok ⟨0x61, [0x01, 0xAA, 0xBB, 0xCC]⟩ :=
  ⟨rfl, by decide⟩

/-- C2 (amended): `send_request` returns the parse of the first frame of
the response stream only.  A stream headed by a pending frame surfaces
`NegativeResponse(sid, 0x78)` to the caller (the pending NRC is not
absorbed); only a stream whose first frame is positive yields that positive
response; an empty stream times out. -/
theorem kwp_send_request_first_frame :
    (∀ (sid nrc : Nat) (d : List Nat) (rest : List (List Nat)),
      send_request ((0x7F :: sid :: nrc :: d) :: rest) =
        .error (.negativeResponse sid nrc)) ∧
    (∀ (sid : Nat) (d : List Nat) (rest : List (List Nat)), sid ≠ 0x7F →
      send_request ((sid :: d) :: rest) = .ok ⟨sid, d⟩) ∧
    send_request [] = .error .timeout := by
  refine ⟨fun sid nrc d rest => rfl, fun sid d rest h => ?_, rfl⟩
  simp [send_request, from_payload, RESPONSE_NEGATIVE, h]

/-- C2 amended-claim witness: a stream whose first frame is positive yields
the positive response, and a stream headed by a pending frame yields the
pending negative response. -/
theorem kwp_send_request_first_frame_witness :
    send_request [[0x61, 0x01]] = .ok ⟨0x61, [0x01]⟩ ∧
    send_request ((0x7F :: 0x21 :: 0x78 :: []) :: [[0x61, 0x01]]) =
      .error (.negativeResponse 0x21 0x78) :=
  ⟨kwp_send_request_first_frame.2.1 0x61 [0x01] [] (by decide),
    kwp_send_request_first_frame.1 0x21 0x78 [] [[0x61, 0x01]]⟩

end KWP2000

namespace KWP2000StarCAN

/-- C7 failing input: the STAR-on-CAN transport's `send` takes the
Single-Frame path for every payload of length at most 7 (`payload_len <=
7` in the source), so the 7-byte payload `2C 01 02 03 04 05 06` is emitted
as a single CAN frame `[0x12, 0x07, ...]` of 9 data bytes — a Single Frame
for a payload longer than 6, and a frame that is not padded/limited to 8
bytes (`ljust` never truncates).  This contradicts the source's own
comment ("1 byte address + 1 byte PCI + up to 6 data") and the CAN
transport contract (`data: bytes[<=8]`). -/
theorem star_can_send_length7_single_frame :
    send [0x2C, 0x01, 0x02, 0x03, 0x04, 0x05, 0x06] =
      [[0x12, 0x07, 0x2C, 0x01, 0x02, 0x03, 0x04, 0x05, 0x06]] ∧
    ((send [0x2C, 0x01, 0x02, 0x03, 0x04, 0x05, 0x06]).getD 0 []).length = 9 ∧
    6 < ([0x2C, 0x01, 0x02, 0x03, 0x04, 0x05, 0x06] : List Nat).length :=
  ⟨rfl, rfl, by decide⟩

end KWP2000StarCAN

namespace DS2Client

/-- C8: after sending a DS2 request frame, the client consumes exactly
`len(request)` echo bytes from the serial line (the whole echoed frame,
leaving any later bytes untouched) and discards them: the transaction
result is determined by the reply phase alone. -/
theorem ds2_echo_discipline (address : Nat) (payload t reply_line : List Nat)
    (ha : address < 256) (hlen : payload.length ≤ 252) :
    wait_frame (DS2Frames.build_frame address payload ++ t) =
      some (DS2Frames.build_frame address payload, t) ∧
    send_request address (DS2Frames.build_frame address payload ++ t) reply_line =
      reply_phase address reply_line := by
  have hshape : DS2Frames.build_frame address payload ++ t =
      address :: (2 + payload.length + 1) ::
        ((payload ++
          [DS2Frames.calculate_checksum
            (address :: (2 + payload.length + 1) :: payload)]) ++ t) := by
    show ((address :: (2 + payload.length + 1) :: payload) ++
      [DS2Frames.calculate_checksum
        (address :: (2 + payload.length + 1) :: payload)]) ++ t = _
    simp
  have hrem : 2 + payload.length + 1 - 3 = payload.length := by omega
  have htk : ((payload ++
      [DS2Frames.calculate_checksum
        (address :: (2 + payload.length + 1) :: payload)]) ++ t).take
        payload.length = payload := by
    rw [List.append_assoc]
    exact List.take_left _ _
  have hdp : ((payload ++
      [DS2Frames.calculate_checksum
        (address :: (2 + payload.length + 1) :: payload)]) ++ t).drop
        payload.length =
      DS2Frames.calculate_checksum
        (address :: (2 + payload.length + 1) :: payload) :: t := by
    rw [List.append_assoc]
    exact List.drop_left _ _
  have hnl : ¬ (((payload ++
      [DS2Frames.calculate_checksum
        (address :: (2 + payload.length + 1) :: payload)]) ++ t).length <
        payload.length) := by
    simp
  have h1 : wait_frame (DS2Frames.build_frame address payload ++ t) =
      some (DS2Frames.build_frame address payload, t) := by
    rw [hshape]
    simp only [wait_frame, hrem, htk, hdp, if_neg hnl]
    constructor
  refine ⟨h1, ?_⟩
  simp only [send_request, h1]

/-- C8 witness: the echo discipline at the spec's S1 read-memory exchange
(request `12 0A 06 01 00 77 B0 01 <xor>` echoed, reply
`12 0A A0 01 00 77 B0 01 55 <xor>`). -/
theorem ds2_echo_discipline_witness :
    wait_frame (DS2Frames.build_frame 0x12 [0x06, 0x01, 0x00, 0x77, 0xB0, 0x01] ++ [0x99]) =
      some (DS2Frames.build_frame 0x12 [0x06, 0x01, 0x00, 0x77, 0xB0, 0x01], [0x99]) ∧
    send_request 0x12
        (DS2Frames.build_frame 0x12 [0x06, 0x01, 0x00, 0x77, 0xB0, 0x01] ++ [0x99])
        (DS2Frames.build_frame 0x12 [0xA0, 0x01, 0x00, 0x77, 0xB0, 0x01, 0x55]) =
      reply_phase 0x12
        (DS2Frames.build_frame 0x12 [0xA0, 0x01, 0x00, 0x77, 0xB0, 0x01, 0x55]) :=
  ds2_echo_discipline 0x12 [0x06, 0x01, 0x00, 0x77, 0xB0, 0x01] [0x99]
    (DS2Frames.build_frame 0x12 [0xA0, 0x01, 0x00, 0x77, 0xB0, 0x01, 0x55])
    (by decide) (by decide)

end DS2Client

namespace TP20

theorem land_seq_mask (n : Nat) : n &&& SEQ_MASK = n % 16 :=
  Nat.and_pow_two_sub_one_eq_mod n 4

theorem sent_seqs_cons_sent (op s : Nat) (f : List Nat) (tr : List TPEvent) :
    sent_seqs (.sent op s f :: tr) = s :: sent_seqs tr := by
  simp [sent_seqs]

theorem sent_seqs_cons_ack (tr : List TPEvent) :
    sent_seqs (.ackOk :: tr) = sent_seqs tr := by
  simp [sent_seqs]

/-- Core lemma: in a successful segmented send starting at sequence
number `s0 < 16`, the `i`-th sent frame (0-based) bears sequence number
`(s0 + i) % 16`, and the final send sequence is `(s0 + n) % 16` for `n`
chunks. -/
theorem send_chunks_seqs (bs rx_can_id : Nat) (cs : List (List Nat)) :
    ∀ (s0 bc : Nat) (rx : List CanFrame) (tr : List TPEvent) (s' : Nat)
      (rx' : List CanFrame),
      s0 < 16 →
      send_chunks bs rx_can_id s0 bc cs rx = .ok (tr, s', rx') →
      sent_seqs tr = (List.range cs.length).map (fun i => (s0 + i) % 16) ∧
      s' = (s0 + cs.length) % 16 := by
  induction cs with
  | nil =>
    intro s0 bc rx tr s' rx' hs0 hrun
    simp only [send_chunks, Except.ok.injEq, Prod.mk.injEq] at hrun
    obtain ⟨htr, hs, hrx⟩ := hrun
    subst htr hs
    constructor
    · simp [sent_seqs]
    · simp; omega
  | cons c cs ih =>
    intro s0 bc rx tr s' rx' hs0 hrun
    simp only [send_chunks] at hrun
    by_cases hna : bs ≤ bc + 1 ∨ cs = []
    · rw [if_pos hna] at hrun
      cases hwfa : wait_for_ack rx_can_id s0 rx with
      | error e => simp only [hwfa] at hrun; simp at hrun
      | ok rx1 =>
        simp only [hwfa] at hrun
        cases hrec : send_chunks bs rx_can_id ((s0 + 1) &&& SEQ_MASK) 0 cs rx1 with
        | error e => simp only [hrec] at hrun; simp at hrun
        | ok trip =>
          obtain ⟨tr1, s1, rx2⟩ := trip
          simp only [hrec] at hrun
          simp only [Except.ok.injEq, Prod.mk.injEq] at hrun
          obtain ⟨htr, hs, hrx⟩ := hrun
          subst htr hs
          rw [land_seq_mask] at hrec
          have hih := ih ((s0 + 1) % 16) 0 rx1 tr1 s1 rx2
            (Nat.mod_lt _ (by omega)) hrec
          constructor
          · rw [sent_seqs_cons_sent, sent_seqs_cons_ack, hih.1]
            simp only [List.length_cons]
            rw [List.range_succ_eq_map, List.map_cons, List.map_map, land_seq_mask]
            simp only [List.cons.injEq]
            exact ⟨by omega,
              List.map_congr_left fun i _ => by simp [Function.comp]; omega⟩
          · rw [hih.2]
            simp only [List.length_cons]
            omega
    · rw [if_neg hna] at hrun
      push_neg at hna
      cases hrec : send_chunks bs rx_can_id ((s0 + 1) &&& SEQ_MASK) (bc + 1) cs rx with
      | error e => simp only [hrec] at hrun; simp at hrun
      | ok trip =>
        obtain ⟨tr1, s1, rx2⟩ := trip
        simp only [hrec] at hrun
        simp only [Except.ok.injEq, Prod.mk.injEq] at hrun
        obtain ⟨htr, hs, hrx⟩ := hrun
        subst htr hs
        rw [land_seq_mask] at hrec
        have hih := ih ((s0 + 1) % 16) (bc + 1) rx tr1 s1 rx2
          (Nat.mod_lt _ (by omega)) hrec
        constructor
        · rw [sent_seqs_cons_sent, hih.1]
          simp only [List.length_cons]
          rw [List.range_succ_eq_map, List.map_cons, List.map_map, land_seq_mask]
          simp only [List.cons.injEq]
          exact ⟨by omega,
            List.map_congr_left fun i _ => by simp [Function.comp]; omega⟩
        · rw [hih.2]
          simp only [List.length_cons]
          omega

theorem ack_paced_cons_sent_else (bs c op s : Nat) (f : List Nat)
    (tr : List TPEvent) (hb : ¬ bs ≤ c + 1) :
    ack_paced bs c (.sent op s f :: tr) = ack_paced bs (c + 1) tr := by
  cases tr with
  | nil => rw [ack_paced.eq_4 bs c op s f [] (by intro tr' h; cases h), if_neg hb]
  | cons e tr' =>
    cases e with
    | ackOk => rw [ack_paced.eq_3, if_neg hb]
    | sent op2 s2 f2 =>
      rw [ack_paced.eq_4 bs c op s f _ (by intro tr'' h; simp at h), if_neg hb]

/-- Core lemma: every successful segmented send, starting from any block
count, produces an ACK-paced event trace: whenever the running count of
frames sent since the last acknowledgement reaches `bs`, that frame bears
a wait-ACK opcode and is immediately followed by a received
acknowledgement before any further frame is sent. -/
theorem send_chunks_ack_paced (bs rx_can_id : Nat) (cs : List (List Nat)) :
    ∀ (s0 bc : Nat) (rx : List CanFrame) (tr : List TPEvent) (s' : Nat)
      (rx' : List CanFrame),
      send_chunks bs rx_can_id s0 bc cs rx = .ok (tr, s', rx') →
      ack_paced bs bc tr = true := by
  induction cs with
  | nil =>
    intro s0 bc rx tr s' rx' hrun
    simp only [send_chunks, Except.ok.injEq, Prod.mk.injEq] at hrun
    obtain ⟨htr, -, -⟩ := hrun
    subst htr
    rfl
  | cons c cs ih =>
    intro s0 bc rx tr s' rx' hrun
    simp only [send_chunks] at hrun
    by_cases hna : bs ≤ bc + 1 ∨ cs = []
    · rw [if_pos hna] at hrun
      cases hwfa : wait_for_ack rx_can_id s0 rx with
      | error e => simp only [hwfa] at hrun; simp at hrun
      | ok rx1 =>
        simp only [hwfa] at hrun
        cases hrec : send_chunks bs rx_can_id ((s0 + 1) &&& SEQ_MASK) 0 cs rx1 with
        | error e => simp only [hrec] at hrun; simp at hrun
        | ok trip =>
          obtain ⟨tr1, s1, rx2⟩ := trip
          simp only [hrec] at hrun
          simp only [Except.ok.injEq, Prod.mk.injEq] at hrun
          obtain ⟨htr, -, -⟩ := hrun
          subst htr
          have hih := ih _ 0 rx1 tr1 s1 rx2 hrec
          by_cases hb : bs ≤ bc + 1
          · rw [ack_paced.eq_3, if_pos hb]
            by_cases hcs : cs = [] <;>
              simp [hb, hcs, hih, DATA_OP_WAIT_ACK_LAST, DATA_OP_WAIT_ACK_MORE]
          · have hcs : cs = [] := hna.resolve_left hb
            subst hcs
            simp only [send_chunks, Except.ok.injEq, Prod.mk.injEq] at hrec
            obtain ⟨htr1, -, -⟩ := hrec
            subst htr1
            rw [ack_paced.eq_3, if_neg hb, ack_paced.eq_2, ack_paced.eq_1]
    · rw [if_neg hna] at hrun
      push_neg at hna
      obtain ⟨hb, hcs⟩ := hna
      cases hrec : send_chunks bs rx_can_id ((s0 + 1) &&& SEQ_MASK) (bc + 1) cs rx with
      | error e => simp only [hrec] at hrun; simp at hrun
      | ok trip =>
        obtain ⟨tr1, s1, rx2⟩ := trip
        simp only [hrec] at hrun
        simp only [Except.ok.injEq, Prod.mk.injEq] at hrun
        obtain ⟨htr, -, -⟩ := hrun
        subst htr
        have hih := ih _ (bc + 1) rx tr1 s1 rx2 hrec
        have hb2 : ¬ bs ≤ bc + 1 := by omega
        rw [ack_paced_cons_sent_else _ _ _ _ _ _ hb2]
        exact hih

/-- Core lemma: `wait_for_ack` succeeds only by consuming, on the RX CAN
id, an ACK-ready frame whose sequence nibble equals `(s + 1) & 0xF`. -/
theorem wait_for_ack_ok_elim (rx_can_id s : Nat) :
    ∀ (rx rx' : List CanFrame), wait_for_ack rx_can_id s rx = .ok rx' →
      ∃ (pre : List CanFrame) (f : CanFrame) (b : Nat) (tl : List Nat),
        rx = pre ++ f :: rx' ∧ f.id = rx_can_id ∧ f.data = b :: tl ∧
        b / 16 = DATA_OP_ACK_READY ∧ b % 16 = (s + 1) &&& SEQ_MASK := by
  intro rx
  induction rx with
  | nil => intro rx' h; simp [wait_for_ack] at h
  | cons f rest ih =>
    intro rx' h
    simp only [wait_for_ack] at h
    by_cases h1 : f.id ≠ rx_can_id
    · rw [if_pos h1] at h
      obtain ⟨pre, g, b, tl, hpre, hrest⟩ := ih rx' h
      exact ⟨f :: pre, g, b, tl, by rw [List.cons_append, hpre], hrest⟩
    · rw [if_neg h1] at h
      push_neg at h1
      by_cases h2 : f.data = [OPCODE_CHANNEL_TEST]
      · rw [if_pos h2] at h
        obtain ⟨pre, g, b, tl, hpre, hrest⟩ := ih rx' h
        exact ⟨f :: pre, g, b, tl, by rw [List.cons_append, hpre], hrest⟩
      · rw [if_neg h2] at h
        by_cases h3 : f.data = [OPCODE_DISCONNECT]
        · rw [if_pos h3] at h; simp at h
        · rw [if_neg h3] at h
          cases hfd : f.data with
          | nil =>
            rw [hfd] at h
            simp only [parse_data_frame] at h
            obtain ⟨pre, g, b, tl, hpre, hrest⟩ := ih rx' h
            exact ⟨f :: pre, g, b, tl, by rw [List.cons_append, hpre], hrest⟩
          | cons b tl =>
            rw [hfd] at h
            simp only [parse_data_frame] at h
            by_cases h4 : (b / 16 = DATA_OP_ACK_READY ∨
                b / 16 = DATA_OP_ACK_NOT_READY) ∧ b % 16 = (s + 1) &&& SEQ_MASK
            · rw [if_pos h4] at h
              by_cases h5 : b / 16 = DATA_OP_ACK_NOT_READY
              · rw [if_pos h5] at h
                obtain ⟨pre, g, b', tl', hpre, hrest⟩ := ih rx' h
                exact ⟨f :: pre, g, b', tl', by rw [List.cons_append, hpre], hrest⟩
              · rw [if_neg h5] at h
                simp only [Except.ok.injEq] at h
                subst h
                exact ⟨[], f, b, tl, rfl, h1, hfd, h4.1.resolve_right h5, h4.2⟩
            · rw [if_neg h4] at h
              obtain ⟨pre, g, b', tl', hpre, hrest⟩ := ih rx' h
              exact ⟨f :: pre, g, b', tl', by rw [List.cons_append, hpre], hrest⟩

/-- Core lemma: a receiver-not-ready ACK with the matching sequence defers
— `wait_for_ack` skips it and keeps waiting on the remaining traffic. -/
theorem wait_for_ack_not_ready_defers (rx_can_id s b : Nat) (tl : List Nat)
    (rest : List CanFrame)
    (hop : b / 16 = DATA_OP_ACK_NOT_READY)
    (hseq : b % 16 = (s + 1) &&& SEQ_MASK) :
    wait_for_ack rx_can_id s (⟨rx_can_id, b :: tl⟩ :: rest) =
      wait_for_ack rx_can_id s rest := by
  have hb1 : (b :: tl : List Nat) ≠ [OPCODE_CHANNEL_TEST] := by
    intro hcon
    have hb : b = OPCODE_CHANNEL_TEST := (List.cons.injEq _ _ _ _ ▸ hcon :
      b = OPCODE_CHANNEL_TEST ∧ tl = []).1
    simp [DATA_OP_ACK_NOT_READY] at hop
    simp [OPCODE_CHANNEL_TEST] at hb
    omega
  have hb2 : (b :: tl : List Nat) ≠ [OPCODE_DISCONNECT] := by
    intro hcon
    have hb : b = OPCODE_DISCONNECT := (List.cons.injEq _ _ _ _ ▸ hcon :
      b = OPCODE_DISCONNECT ∧ tl = []).1
    simp [DATA_OP_ACK_NOT_READY] at hop
    simp [OPCODE_DISCONNECT] at hb
    omega
  simp only [wait_for_ack]
  rw [if_neg (by simp), if_neg hb1, if_neg hb2]
  simp only [parse_data_frame]
  rw [if_pos ⟨Or.inr hop, hseq⟩, if_pos hop]

/-- C4: in the TP 2.0 engine, every successful segmented send is ACK-paced
— whenever `block_size` chunks have been sent since the last
acknowledgement, that chunk bears a wait-ACK opcode and an acknowledgement
is received before the next chunk is emitted (first conjunct); the ACK
wait succeeds only by consuming, on the RX CAN id, an ACK-ready frame
whose sequence equals `(sent_seq + 1) & 0xF` (second conjunct); and a
receiver-not-ready ACK defers, the wait continuing on the remaining
traffic (third conjunct). -/
theorem tp20_block_ack_discipline :
    (∀ (bs rx_can_id s0 : Nat) (cs : List (List Nat)) (rx : List CanFrame)
        (tr : List TPEvent) (s' : Nat) (rx' : List CanFrame), 0 < bs →
        send_chunks bs rx_can_id s0 0 cs rx = .ok (tr, s', rx') →
        ack_paced bs 0 tr = true) ∧
    (∀ (rx_can_id s : Nat) (rx rx' : List CanFrame),
        wait_for_ack rx_can_id s rx = .ok rx' →
        ∃ (pre : List CanFrame) (f : CanFrame) (b : Nat) (tl : List Nat),
          rx = pre ++ f :: rx' ∧ f.id = rx_can_id ∧ f.data = b :: tl ∧
          b / 16 = DATA_OP_ACK_READY ∧ b % 16 = (s + 1) &&& SEQ_MASK) ∧
    (∀ (rx_can_id s b : Nat) (tl : List Nat) (rest : List CanFrame),
        b / 16 = DATA_OP_ACK_NOT_READY → b % 16 = (s + 1) &&& SEQ_MASK →
        wait_for_ack rx_can_id s (⟨rx_can_id, b :: tl⟩ :: rest) =
          wait_for_ack rx_can_id s rest) :=
  ⟨fun bs rx_can_id s0 cs rx tr s' rx' _ h =>
      send_chunks_ack_paced bs rx_can_id cs s0 0 rx tr s' rx' h,
    fun rx_can_id s rx rx' h => wait_for_ack_ok_elim rx_can_id s rx rx' h,
    fun rx_can_id s b tl rest h1 h2 =>
      wait_for_ack_not_ready_defers rx_can_id s b tl rest h1 h2⟩

/-- C4 witness: a three-chunk send with `block_size = 2` yields an
ACK-paced trace; `wait_for_ack` at sequence 1 consumes the ready ACK
`0xB2`; and the not-ready ACK `0x92` at sequence 1 defers. -/
theorem tp20_block_ack_discipline_witness :
    ack_paced 2 0 witness_trace_bs2 = true ∧
    (∃ (pre : List CanFrame) (f : CanFrame) (b : Nat) (tl : List Nat),
      ([⟨0x300, [0xB2]⟩] : List CanFrame) = pre ++ f :: ([] : List CanFrame) ∧
      f.id = 0x300 ∧ f.data = b :: tl ∧ b / 16 = DATA_OP_ACK_READY ∧
      b % 16 = (1 + 1) &&& SEQ_MASK) ∧
    wait_for_ack 0x300 1 (⟨0x300, [0x92]⟩ :: ([] : List CanFrame)) =
      wait_for_ack 0x300 1 [] :=
  ⟨tp20_block_ack_discipline.1 2 0x300 0 (chunks7 (List.replicate 15 0))
      witness_rx_bs2 witness_trace_bs2 3 [] (by decide) rfl,
    tp20_block_ack_discipline.2.1 0x300 1 [⟨0x300, [0xB2]⟩] [] rfl,
    tp20_block_ack_discipline.2.2 0x300 1 0x92 [] [] (by decide) (by decide)⟩

/-- C5: the TP 2.0 send sequence number is a 4-bit counter with rollover
`(n + 1) & 0xF`: in any successful segmented send starting at sequence
`s0 < 16`, the `i`-th data frame bears sequence `(s0 + i) % 16`, the
counter after `n` frames is `(s0 + n) % 16` (so from a fresh channel,
`n mod 16`), and whenever at least 17 frames are sent the 17th bears the
same sequence number as the 1st. -/
theorem tp20_sequence_wrap (bs rx_can_id s0 : Nat) (payload : List Nat)
    (rx : List CanFrame) (tr : List TPEvent) (s' : Nat) (rx' : List CanFrame)
    (hs0 : s0 < 16)
    (hrun : send_chunks bs rx_can_id s0 0 (chunks7 payload) rx = .ok (tr, s', rx')) :
    sent_seqs tr =
      (List.range (chunks7 payload).length).map (fun i => (s0 + i) % 16) ∧
    s' = (s0 + (chunks7 payload).length) % 16 ∧
    (17 ≤ (chunks7 payload).length →
      (sent_seqs tr).getD 16 0 = (sent_seqs tr).getD 0 0) := by
  have h := send_chunks_seqs bs rx_can_id (chunks7 payload) s0 0 rx tr s' rx' hs0 hrun
  refine ⟨h.1, h.2, fun h17 => ?_⟩
  rw [h.1]
  have h16 : 16 < (chunks7 payload).length := by omega
  have h0 : 0 < (chunks7 payload).length := by omega
  rw [List.getD_eq_getElem?_getD, List.getD_eq_getElem?_getD,
    List.getElem?_map, List.getElem?_map, List.getElem?_range h16,
    List.getElem?_range h0]
  simp

/-- C5 witness: a seventeen-chunk send from a fresh channel (`s0 = 0`,
`block_size = 15`) — the 17th frame bears the same sequence number as the
1st. -/
theorem tp20_sequence_wrap_witness :
    (sent_seqs witness_trace_seq17).getD 16 0 =
      (sent_seqs witness_trace_seq17).getD 0 0 :=
  (tp20_sequence_wrap 15 0x300 0 (List.replicate 115 0) witness_rx_seq17
      witness_trace_seq17 1 [] (by decide) rfl).2.2 (by decide)

end TP20
